import Mathlib

/-!
Shallow embedding of the connctd connector protocol runtime
(`github.com/connctd/connector-go`): the request canonicalizer, the
signature-validation middleware, and the default lifecycle orchestrator
(`DefaultConnectorService`).  Go functions become Lean functions; Go's
`(value, error)` multiple returns become pairs with `Option GoErr`;
external collaborators (database, platform client, device provider) become
explicit oracle arguments; side effects that the claims observe (provider
registration, database reads) are returned as explicit effect traces.
-/

namespace ConnectorGo

/-- Go `error` values are observed only through their message text. -/
abbrev GoErr := String

/-! ### HTTP headers

Go's `http.Header` is a `map[string][]string` keyed by canonical MIME header
keys.  We model it as an association list whose keys are already in canonical
form (as `http.Header.Set` stores them); every key the repository looks up
(`Date`, `Signature`) is its own canonical form, so the canonicalization step
of `Header.Get` is the identity on all lookups performed here. -/
abbrev Header := List (String × List String)

/-- The value slice stored for `key`, if the key is present at all. -/
def headerEntry (headers : Header) (key : String) : Option (List String) :=
  (headers.find? (fun p => p.1 = key)).map Prod.snd

/-- Go `http.Header.Get`: first value for the key, `""` when the key is
absent or has no values. -/
def headerGet (headers : Header) (key : String) : String :=
  match headerEntry headers key with
  | none => ""
  | some [] => ""
  | some (v :: _) => v

/-! ### URLs

Embeds the part of Go's `net/url.URL` consumed by `validation.go`:
`RequestURI()` for hierarchical (non-opaque) URLs, which is the only shape an
HTTPS callback URL can have.  `path` holds the escaped path, as
`URL.EscapedPath` would return it. -/
structure URL where
  scheme : String
  host : String
  path : String
  forceQuery : Bool
  rawQuery : String

/-- Go `url.URL.RequestURI()` for non-opaque URLs: the escaped path
(defaulting to `/`) followed by `?rawQuery` when a query is present. -/
def URL.RequestURI (u : URL) : String :=
  (if u.path = "" then "/" else u.path) ++
    (if u.forceQuery || u.rawQuery != "" then "?" ++ u.rawQuery else "")

/-! ### Canonicalizer, `validation.go` -/

/-- `SignatureFragmentDelimiter` from `validation.go`. -/
def SignatureFragmentDelimiter : String := "\r\n"

/-- `SignedHeaderKeyDate` from `validation.go`. -/
def SignedHeaderKeyDate : String := "Date"

/-- `SignedHeaderKeys` from `validation.go`: the declared required headers,
in the order in which they enter the payload. -/
def SignedHeaderKeys : List String := [SignedHeaderKeyDate]

/-- The message of `ErrorMissingHeader` from `validation.go`. -/
def ErrorMissingHeader : GoErr := "A required header is missing"

/-- The header-fragment loop of `SignablePayload` (`validation.go` lines
71-79): for each declared key append `value ++ delimiter`, failing with
`ErrorMissingHeader` as soon as `headers.Get` returns the empty string. -/
def signedHeaderFragments (headers : Header) : List String → Except GoErr String
  | [] => .ok ""
  | key :: rest =>
    let value := headerGet headers key
    if value = "" then .error ErrorMissingHeader
    else
      match signedHeaderFragments headers rest with
      | .error e => .error e
      | .ok tail => .ok (value ++ SignatureFragmentDelimiter ++ tail)

/-- `SignablePayload` from `validation.go` (lines 61-83), the five-argument
canonicalizer: `method\r\nhost\r\nRequestURI\r\n` then one
`value\r\n` per declared header, then the raw body.  Mirrors Go's
`([]byte, error)` return as a pair: on a missing header the payload
component is empty. -/
def SignablePayload (method : String) (host : String) (url : URL)
    (headers : Header) (body : String) : String × Option GoErr :=
  match signedHeaderFragments headers SignedHeaderKeys with
  | .error e => ("", some e)
  | .ok fragments =>
    (method ++ SignatureFragmentDelimiter ++
      host ++ SignatureFragmentDelimiter ++
      url.RequestURI ++ SignatureFragmentDelimiter ++
      fragments ++ body, none)

/-- The labelled header-fragment loop of the six-argument canonicalizer:
one `(Key):value\r\n` fragment per declared key, failing with
`ErrorMissingHeader` when a lookup returns the empty string. -/
def labeledHeaderFragments (headers : Header) : List String → Except GoErr String
  | [] => .ok ""
  | key :: rest =>
    let value := headerGet headers key
    if value = "" then .error ErrorMissingHeader
    else
      match labeledHeaderFragments headers rest with
      | .error e => .error e
      | .ok tail => .ok ("(" ++ key ++ "):" ++ value ++ SignatureFragmentDelimiter ++ tail)

/-- Modelled from the spec: `crypto.SignablePayload`, the six-argument
canonicalizer of `github.com/connctd/api-go/crypto`, is not among the
provided sources — only its tests (`validation_test.go` and the crypto-package
test file) and its caller (the signature-validation handler) are.  Per spec
section 4.1 and the byte strings those tests expect, it emits the fragments
`(method):METHOD`, `(url):scheme://host requestURI`, one `(Key):value` per
declared signed header, and `(body):body`, joined by CRLF with no trailing
delimiter; a missing required header yields the empty payload together with
the MissingHeader error. -/
def cryptoSignablePayload (method : String) (scheme : String) (host : String)
    (requestURI : String) (headers : Header) (body : String) :
    String × Option GoErr :=
  match labeledHeaderFragments headers SignedHeaderKeys with
  | .error e => ("", some e)
  | .ok fragments =>
    ("(method):" ++ method ++ SignatureFragmentDelimiter ++
      "(url):" ++ scheme ++ "://" ++ host ++ requestURI ++ SignatureFragmentDelimiter ++
      fragments ++ "(body):" ++ body, none)

/-! ### Base64 (Go `encoding/base64` StdEncoding) -/

/-- Index of a character in the standard base64 alphabet. -/
def base64Index (c : Char) : Option Nat :=
  if 'A' ≤ c ∧ c ≤ 'Z' then some (c.toNat - 'A'.toNat)
  else if 'a' ≤ c ∧ c ≤ 'z' then some (c.toNat - 'a'.toNat + 26)
  else if '0' ≤ c ∧ c ≤ '9' then some (c.toNat - '0'.toNat + 52)
  else if c = '+' then some 62
  else if c = '/' then some 63
  else none

/-- Decode a padded standard-alphabet base64 character stream, as Go's
`base64.StdEncoding.DecodeString` accepts it: full four-character quanta,
`=` padding only in the final quantum, any invalid character or length
rejected.  Bytes are returned as `Nat`s below 256. -/
def base64DecodeChars : List Char → Option (List Nat)
  | [] => some []
  | c1 :: c2 :: c3 :: c4 :: rest => do
    let i1 ← base64Index c1
    let i2 ← base64Index c2
    if c3 = '=' then
      if c4 = '=' ∧ rest = [] then
        some [i1 * 4 + i2 / 16]
      else none
    else do
      let i3 ← base64Index c3
      if c4 = '=' then
        if rest = [] then
          some [i1 * 4 + i2 / 16, (i2 % 16) * 16 + i3 / 4]
        else none
      else do
        let i4 ← base64Index c4
        let tail ← base64DecodeChars rest
        some ((i1 * 4 + i2 / 16) :: ((i2 % 16) * 16 + i3 / 4) :: ((i3 % 4) * 64 + i4) :: tail)
  | _ => none

/-- Go `base64.StdEncoding.DecodeString`; `none` is the error case. -/
def base64Decode (s : String) : Option (List Nat) :=
  base64DecodeChars s.toList

/-! ### Signature-validation middleware (`signatureValidationHandler`) -/

/-- Modelled from the spec: `crypto.SignatureHeaderKey` from
`github.com/connctd/api-go/crypto` is not among the provided sources; the
spec only states that the signature travels in a dedicated header, so its
name is modelled as `Signature`.  No claim depends on the literal name. -/
def SignatureHeaderKey : String := "Signature"

/-- An ed25519 public key, as an opaque byte list. -/
abbrev PublicKey := List Nat

/-- `ed25519.Verify` is an external cryptographic primitive; the handler is
embedded parametrically over it (public key, message, signature). -/
abbrev Ed25519Verify := PublicKey → String → List Nat → Bool

/-- The inbound request as the handler consumes it.  The body is the full
byte content; `ioutil.ReadAll` is modelled as always succeeding, so the
`Failed to read body` branch of the Go code is unreachable in the model. -/
structure Request where
  method : String
  url : URL
  headers : Header
  body : String

/-- `ValidationParameters` from the handler source. -/
structure ValidationParameters where
  Scheme : String
  Host : String
  RequestURI : String

/-- `ValidationPreProcessor` from the handler source. -/
abbrev ValidationPreProcessor := Request → ValidationParameters

/-- `DefaultValidationPreProcessor` from the handler source: scheme forced to
`https`, host and request URI taken from the request's own URL. -/
def DefaultValidationPreProcessor : ValidationPreProcessor := fun r =>
  { Scheme := "https", Host := r.url.host, RequestURI := r.url.RequestURI }

/-- `ProxiedRequestValidationPreProcessor` from the handler source: a
statically configured host and endpoint. -/
def ProxiedRequestValidationPreProcessor (host : String) (endpoint : String) :
    ValidationPreProcessor := fun _ =>
  { Scheme := "https", Host := host, RequestURI := endpoint }

/-- `signatureValidationHandler` (its `next` handler is not part of the
state; whether it runs is the observable outcome below). -/
structure SignatureValidationHandler where
  preProcessor : ValidationPreProcessor
  publicKey : PublicKey

/-- Observable outcome of one `ServeHTTP` call: either the next handler runs
with the restored body, or a response is written and the next handler never
runs. -/
inductive HandlerResult
  | forward (restoredBody : String)
  | respond (status : Nat) (body : String)
deriving DecidableEq

/-- `signatureValidationHandler.ServeHTTP`: read the signature header,
base64-decode it (failure responds 400 `Failed to decode signature
signature`), buffer the body, apply the preprocessor, recompute the
canonical payload — the error returned by `crypto.SignablePayload` is
assigned and never inspected, exactly as in the source — and verify the
decoded signature against the payload component: success restores the body
and forwards, failure responds 400 `Bad signature`. -/
def ServeHTTP (verify : Ed25519Verify) (h : SignatureValidationHandler)
    (r : Request) : HandlerResult :=
  let signature := headerGet r.headers SignatureHeaderKey
  match base64Decode signature with
  | none => .respond 400 "Failed to decode signature signature"
  | some decodedSignature =>
    let body := r.body
    let extractedValues := h.preProcessor r
    let expectedSignature :=
      (cryptoSignablePayload r.method extractedValues.Scheme extractedValues.Host
        extractedValues.RequestURI r.headers body).1
    if verify h.publicKey expectedSignature decodedSignature then
      .forward body
    else
      .respond 400 "Bad signature"

/-! ### Orchestrator data model

The `connector` package file declaring `ThingMapping`, `Instance`,
`Installation`, `ThingTemplate`, `ActionRequest`, `ActionResponse` and
`ActionRequestStatus` is not among the provided sources; the structures below
carry exactly the fields the provided service code reads or writes (field
names as in Go, lowered to avoid clashing with the type names). -/

/-- `connector.Configuration`: a key/value pair. -/
structure Configuration where
  id : String
  value : String
deriving DecidableEq

/-- `connector.ThingMapping`: durable `(instance, thing, external)` id triple. -/
structure ThingMapping where
  instanceID : String
  thingID : String
  externalID : String
deriving DecidableEq

/-- `connctd.Thing`, reduced to the only field the service consumes (`ID`);
the remaining descriptive fields never influence the modelled operations. -/
structure Thing where
  id : String
deriving DecidableEq

/-- `connector.ThingTemplate`: a thing description plus the connector's own
external id for it. -/
structure ThingTemplate where
  thing : Thing
  externalID : String
deriving DecidableEq

/-- `connector.Installation` as the service constructs it. -/
structure Installation where
  id : String
  token : String
  configuration : List Configuration
deriving DecidableEq

/-- `connector.Instance` as the service constructs it. -/
structure Instance where
  id : String
  installationID : String
  token : String
  thingMapping : List ThingMapping
  configuration : List Configuration
deriving DecidableEq

/-- `connector.ActionRequestStatus` (`Completed`, `Pending`, `Failed`). -/
inductive ActionRequestStatus
  | completed
  | pending
  | failed
deriving DecidableEq

/-- `connector.ActionResponse`: a status plus an error text. -/
structure ActionResponse where
  status : ActionRequestStatus
  error : String
deriving DecidableEq

/-- `connector.ActionRequest`, reduced to the fields `PerformAction` reads. -/
structure ActionRequest where
  id : String
  thingID : String
deriving DecidableEq

/-! ### `DefaultConnectorService` options and construction -/

/-- `service.ConnectorServiceOptions`. -/
structure ConnectorServiceOptions where
  AsyncInstanceCreation : Bool
  EnforceThingCreation : Bool
deriving DecidableEq

/-- `service.DefaultConnectorServiceOptions`. -/
def DefaultConnectorServiceOptions : ConnectorServiceOptions :=
  { AsyncInstanceCreation := false, EnforceThingCreation := true }

/-- The service record; its collaborators are supplied as oracles to each
operation, so only the options remain as state. -/
structure DefaultConnectorService where
  options : ConnectorServiceOptions
deriving DecidableEq

/-- Results of the two database reads `init` performs. -/
structure DatabaseReads where
  getInstallations : Except GoErr (List Installation)
  getInstances : Except GoErr (List Instance)

/-- One externally visible step taken during service construction. -/
inductive Effect
  | getInstallations
  | registerInstallations (installations : List Installation)
  | getInstances
  | registerInstances (instances : List Instance)
deriving DecidableEq

/-- Outcome of `NewConnectorService`: Go returns `(connector, err)` where the
pointer is nil exactly on the option-validation failure, plus the trace of
database reads and provider registrations performed on the way. -/
structure NewServiceResult where
  service : Option DefaultConnectorService
  error : Option GoErr
  effects : List Effect
deriving DecidableEq

/-- `service.NewConnectorService` followed by `init`: the mutually exclusive
options are rejected first, with no effect performed; otherwise `init` reads
installations and instances from the database, registering each batch with
the provider, and a database failure aborts `init` with a wrapped error. -/
def NewConnectorService (options : ConnectorServiceOptions)
    (db : DatabaseReads) : NewServiceResult :=
  if options.AsyncInstanceCreation && options.EnforceThingCreation then
    { service := none,
      error := some "enforced thing creation cant be enabled when async instance creation is enabled",
      effects := [] }
  else
    match db.getInstallations with
    | .error e =>
      { service := some { options },
        error := some ("failed to retrieve installations from db: " ++ e),
        effects := [.getInstallations] }
    | .ok installations =>
      match db.getInstances with
      | .error e =>
        { service := some { options },
          error := some ("failed to retrieve instance from db: " ++ e),
          effects := [.getInstallations, .registerInstallations installations,
            .getInstances] }
      | .ok instances =>
        { service := some { options },
          error := none,
          effects := [.getInstallations, .registerInstallations installations,
            .getInstances, .registerInstances instances] }

/-! ### Thing synchronization -/

/-- Outcome of `DefaultConnectorService.CreateThing` for one template,
collapsing its database reads, the platform-client call and the mapping
insert: either the thing created at the platform, or the first error along
that path.  A success implies the corresponding mapping was persisted. -/
abbrev CreateThingOracle := ThingTemplate → Except GoErr Thing

/-- Whether a `CreateThing` outcome is an error. -/
def isErr : Except GoErr Thing → Bool
  | .error _ => true
  | .ok _ => false

/-- The template loop of `synchronizeThings` (`DefaultConnectorService`,
lines 161-182): walk the templates in order; a successful creation appends
the `(instanceID, thing.ID, template.ExternalID)` mapping; a failed creation
aborts with the error when `EnforceThingCreation && !AsyncInstanceCreation`,
and is skipped otherwise.  Returns the templates attempted, the mappings
assembled (Go's `thingMapping` accumulator, rendered as forward list
construction), and the error returned, if any. -/
def syncThingsLoop (options : ConnectorServiceOptions)
    (createThing : CreateThingOracle) (instanceID : String) :
    List ThingTemplate → List ThingTemplate × List ThingMapping × Option GoErr
  | [] => ([], [], none)
  | template :: rest =>
    match createThing template with
    | .error e =>
      if options.EnforceThingCreation && !options.AsyncInstanceCreation then
        ([template], [], some e)
      else
        let (attempted, mappings, err) := syncThingsLoop options createThing instanceID rest
        (template :: attempted, mappings, err)
    | .ok thing =>
      let (attempted, mappings, err) := syncThingsLoop options createThing instanceID rest
      (template :: attempted,
        { instanceID, thingID := thing.id, externalID := template.externalID } :: mappings,
        err)

/-- Observable outcome of one `synchronizeThings` run. -/
structure SyncResult where
  attempted : List ThingTemplate
  mappings : List ThingMapping
  registeredInstances : List Instance
  error : Option GoErr
deriving DecidableEq

/-- `DefaultConnectorService.synchronizeThings` (lines 161-193): run the
template loop, then — only when the loop did not abort — register the
instance, carrying the assembled mapping list, with the provider exactly
once, and return nil; an enforcement abort returns the creation error
without registering anything. -/
def synchronizeThings (options : ConnectorServiceOptions)
    (createThing : CreateThingOracle) (instanceID : String)
    (installationID : String) (token : String)
    (configuration : List Configuration)
    (thingTemplates : List ThingTemplate) : SyncResult :=
  match syncThingsLoop options createThing instanceID thingTemplates with
  | (attempted, mappings, some e) =>
    { attempted, mappings, registeredInstances := [], error := some e }
  | (attempted, mappings, none) =>
    { attempted, mappings,
      registeredInstances :=
        [{ id := instanceID, installationID, token,
           thingMapping := mappings, configuration }],
      error := none }

/-- Spec-side companion for comparison: the mappings of exactly those
templates whose creation succeeds, in template order. -/
def specSuccessMappings (createThing : CreateThingOracle) (instanceID : String)
    (templates : List ThingTemplate) : List ThingMapping :=
  templates.filterMap fun template =>
    match createThing template with
    | .ok thing =>
      some { instanceID, thingID := thing.id, externalID := template.externalID }
    | .error _ => none

/-! ### `PerformAction` -/

/-- `DefaultConnectorService.PerformAction` (lines 213-245), with the
database lookup and the provider call as oracles.  Returns Go's
`(*ActionResponse, error)` pair.  A failed instance lookup synthesizes a
`Failed` response with a fixed error text and swallows the lookup error; a
provider error is propagated together with a response carrying the provider
status; otherwise `Completed` answers `(nil, nil)`, `Pending` answers a
response carrying only the status, and a `Failed` status without an error is
logged as a contract violation and answered `(nil, nil)`. -/
def PerformAction
    (getInstanceByThingId : String → Except GoErr Instance)
    (requestAction : Instance → ActionRequest → ActionRequestStatus × Option GoErr)
    (actionRequest : ActionRequest) : Option ActionResponse × Option GoErr :=
  match getInstanceByThingId actionRequest.thingID with
  | .error _ =>
    (some { status := .failed, error := "thing ID was not found at connector" }, none)
  | .ok inst =>
    match requestAction inst actionRequest with
    | (status, some e) => (some { status, error := e }, some e)
    | (status, none) =>
      match status with
      | .completed => (none, none)
      | .pending => (some { status := .pending, error := "" }, none)
      | .failed => (none, none)

/-! ### Update relay (`EventHandler` loop body) -/

/-- `connector.PropertyUpdateEvent`. -/
structure PropertyUpdateEvent where
  thingId : String
  instanceId : String
  componentId : String
  propertyId : String
  value : String
deriving DecidableEq

/-- `connector.ActionEvent` as the service consumes it (`Response`,
`RequestId`, `InstanceId`). -/
structure ActionEvent where
  instanceId : String
  response : ActionResponse
  requestId : String
deriving DecidableEq

/-- `connector.UpdateEvent`: either or both constituent events. -/
structure UpdateEvent where
  actionEvent : Option ActionEvent
  propertyUpdateEvent : Option PropertyUpdateEvent
deriving DecidableEq

/-- The platform calls one relay iteration performs: the property update
forwarded (if any) and the `UpdateActionStatus` call's
`(instanceId, requestId, response)` arguments (if any). -/
structure RelayCalls where
  propertyForward : Option PropertyUpdateEvent
  actionForward : Option (String × String × ActionResponse)
deriving DecidableEq

/-- One iteration of the `EventHandler` update loop (lines 251-271): forward
a present property update first, remembering its error; then, for a present
action event, override the response with status `Failed` and error text
`failed to update property <err>` when the property update failed, and
forward the (possibly overridden) action status second.  The result of
forwarding the action status is only logged, so it is not modelled. -/
def eventHandlerStep (updateProperty : PropertyUpdateEvent → Option GoErr)
    (update : UpdateEvent) : RelayCalls :=
  let err : Option GoErr :=
    match update.propertyUpdateEvent with
    | some propertyUpdate => updateProperty propertyUpdate
    | none => none
  match update.actionEvent with
  | none => { propertyForward := update.propertyUpdateEvent, actionForward := none }
  | some actionEvent =>
    let response :=
      match err with
      | some e =>
        { status := ActionRequestStatus.failed,
          error := "failed to update property " ++ e }
      | none => actionEvent.response
    { propertyForward := update.propertyUpdateEvent,
      actionForward := some (actionEvent.instanceId, actionEvent.requestId, response) }

/-! ### Lemmas about the synchronization loop -/

/-- When `EnforceThingCreation && !AsyncInstanceCreation` is false, the loop
attempts every template, never errors, and assembles exactly the successful
mappings. -/
theorem syncThingsLoop_no_enforce (options : ConnectorServiceOptions)
    (createThing : CreateThingOracle) (instanceID : String)
    (ts : List ThingTemplate)
    (hcond : (options.EnforceThingCreation && !options.AsyncInstanceCreation) = false) :
    syncThingsLoop options createThing instanceID ts =
      (ts, specSuccessMappings createThing instanceID ts, none) := by
  induction ts with
  | nil => simp [syncThingsLoop, specSuccessMappings]
  | cons t rest ih =>
    simp only [syncThingsLoop, specSuccessMappings, List.filterMap_cons]
    cases h : createThing t with
    | error e =>
      simp only [hcond, Bool.false_eq_true, if_false, ih]
      simp [specSuccessMappings]
    | ok thing =>
      simp only [ih]
      simp [specSuccessMappings]

/-- The loop ends without error iff enforcement (in synchronous mode) is off
or no attempted template fails. -/
theorem syncThingsLoop_error_none_iff (options : ConnectorServiceOptions)
    (createThing : CreateThingOracle) (instanceID : String)
    (ts : List ThingTemplate) :
    (syncThingsLoop options createThing instanceID ts).2.2 = none ↔
      ((options.EnforceThingCreation && !options.AsyncInstanceCreation) = false ∨
        ∀ t ∈ ts, isErr (createThing t) = false) := by
  cases hcond : (options.EnforceThingCreation && !options.AsyncInstanceCreation) with
  | false => simp [syncThingsLoop_no_enforce options createThing instanceID ts hcond]
  | true =>
    simp only [Bool.true_eq_false, false_or]
    induction ts with
    | nil => simp [syncThingsLoop]
    | cons t rest ih =>
      simp only [syncThingsLoop]
      cases h : createThing t with
      | error e =>
        simp only [hcond, if_true]
        constructor
        · intro hfalse; cases hfalse
        · intro hall
          have := hall t (by simp)
          simp [isErr, h] at this
      | ok thing =>
        rcases hr : syncThingsLoop options createThing instanceID rest with ⟨att, ms, er⟩
        simp only [hr] at ih
        constructor
        · intro her t ht
          rcases List.mem_cons.mp ht with rfl | hmem
          · simp [isErr, h]
          · exact (ih.mp her) t hmem
        · intro hall
          exact ih.mpr (fun t ht => hall t (List.mem_cons_of_mem _ ht))

/-- When the loop ends without error, its assembled mappings are exactly the
successful templates' mappings, in order. -/
theorem syncThingsLoop_mappings_of_error_none (options : ConnectorServiceOptions)
    (createThing : CreateThingOracle) (instanceID : String)
    (ts : List ThingTemplate)
    (h : (syncThingsLoop options createThing instanceID ts).2.2 = none) :
    (syncThingsLoop options createThing instanceID ts).2.1 =
      specSuccessMappings createThing instanceID ts := by
  induction ts with
  | nil => simp [syncThingsLoop, specSuccessMappings]
  | cons t rest ih =>
    simp only [syncThingsLoop] at h ⊢
    cases hc : createThing t with
    | error e =>
      simp only [hc] at h ⊢
      cases hcond : (options.EnforceThingCreation && !options.AsyncInstanceCreation) with
      | true => simp [hcond] at h
      | false =>
        simp only [hcond, Bool.false_eq_true, if_false] at h ⊢
        rcases hr : syncThingsLoop options createThing instanceID rest with ⟨att, ms, er⟩
        simp only [hr] at h ih ⊢
        simp only [specSuccessMappings, List.filterMap_cons, hc]
        exact ih h
    | ok thing =>
      simp only [hc] at h ⊢
      rcases hr : syncThingsLoop options createThing instanceID rest with ⟨att, ms, er⟩
      simp only [hr] at h ih ⊢
      simp only [specSuccessMappings, List.filterMap_cons, hc]
      simpa using ih h

/-- The enforced loop's mappings extend to the non-enforced loop's mappings:
whatever a synchronous enforced run assembles is an initial segment of what
the same run with enforcement disabled assembles. -/
theorem syncThingsLoop_enforced_initial_segment
    (createThing : CreateThingOracle) (instanceID : String)
    (ts : List ThingTemplate) :
    ∃ rest,
      (syncThingsLoop { AsyncInstanceCreation := false, EnforceThingCreation := true }
          createThing instanceID ts).2.1 ++ rest =
        (syncThingsLoop { AsyncInstanceCreation := false, EnforceThingCreation := false }
          createThing instanceID ts).2.1 := by
  induction ts with
  | nil => exact ⟨[], rfl⟩
  | cons t rest ih =>
    simp only [syncThingsLoop]
    cases hc : createThing t with
    | error e =>
      refine ⟨(syncThingsLoop { AsyncInstanceCreation := false, EnforceThingCreation := false }
        createThing instanceID rest).2.1, ?_⟩
      rcases hr : syncThingsLoop { AsyncInstanceCreation := false, EnforceThingCreation := false }
        createThing instanceID rest with ⟨att, ms, er⟩
      simp [hr]
    | ok thing =>
      rcases ih with ⟨tail, htail⟩
      refine ⟨tail, ?_⟩
      rcases h1 : syncThingsLoop { AsyncInstanceCreation := false, EnforceThingCreation := true }
        createThing instanceID rest with ⟨att1, ms1, er1⟩
      rcases h2 : syncThingsLoop { AsyncInstanceCreation := false, EnforceThingCreation := false }
        createThing instanceID rest with ⟨att2, ms2, er2⟩
      simp only [h1, h2] at htail ⊢
      simp [htail]

/-- Under synchronous enforcement the loop errors iff some template fails. -/
theorem syncThingsLoop_enforced_error (createThing : CreateThingOracle)
    (instanceID : String) (ts : List ThingTemplate) :
    (syncThingsLoop { AsyncInstanceCreation := false, EnforceThingCreation := true }
        createThing instanceID ts).2.2.isSome = true ↔
      ∃ t ∈ ts, isErr (createThing t) = true := by
  have h := syncThingsLoop_error_none_iff
    { AsyncInstanceCreation := false, EnforceThingCreation := true }
    createThing instanceID ts
  simp only [Bool.true_eq_false] at h
  rcases he : (syncThingsLoop { AsyncInstanceCreation := false, EnforceThingCreation := true }
      createThing instanceID ts).2.2 with _ | e
  · simp only [he, Option.isSome_none] at h ⊢
    simp only [true_iff] at h
    rcases h with hfalse | hall
    · cases hfalse
    · simp only [Bool.false_eq_true, false_iff]
      intro ⟨t, ht, herr⟩
      have := hall t ht
      rw [this] at herr
      cases herr
  · simp only [he] at h ⊢
    simp only [Option.isSome_some, true_iff]
    by_contra hnone
    push_neg at hnone
    have : ∀ t ∈ ts, isErr (createThing t) = false := by
      intro t ht
      have := hnone t ht
      cases hcase : isErr (createThing t)
      · rfl
      · exact absurd hcase this
    have := h.mpr (Or.inr this)
    cases this

/-- Projections of `synchronizeThings` in terms of the loop. -/
theorem synchronizeThings_parts (options : ConnectorServiceOptions)
    (createThing : CreateThingOracle) (iid lid tok : String)
    (cfg : List Configuration) (ts : List ThingTemplate) :
    (synchronizeThings options createThing iid lid tok cfg ts).error =
        (syncThingsLoop options createThing iid ts).2.2 ∧
      (synchronizeThings options createThing iid lid tok cfg ts).mappings =
        (syncThingsLoop options createThing iid ts).2.1 ∧
      (synchronizeThings options createThing iid lid tok cfg ts).attempted =
        (syncThingsLoop options createThing iid ts).1 := by
  rcases h : syncThingsLoop options createThing iid ts with ⟨a, m, e⟩
  cases e <;> simp [synchronizeThings, h]

/-- Claim C5: with enforcement disabled, thing synchronization attempts
thing creation for every template regardless of individual failures, returns
no error, and its mapping set is exactly the mappings of the templates whose
creation succeeded. -/
theorem claim5_sync_no_enforcement (options : ConnectorServiceOptions)
    (createThing : CreateThingOracle) (iid lid tok : String)
    (cfg : List Configuration) (ts : List ThingTemplate)
    (henf : options.EnforceThingCreation = false) :
    (synchronizeThings options createThing iid lid tok cfg ts).attempted = ts ∧
      (synchronizeThings options createThing iid lid tok cfg ts).error = none ∧
      (synchronizeThings options createThing iid lid tok cfg ts).mappings =
        specSuccessMappings createThing iid ts := by
  have hcond : (options.EnforceThingCreation && !options.AsyncInstanceCreation) = false := by
    simp [henf]
  have hloop := syncThingsLoop_no_enforce options createThing iid ts hcond
  obtain ⟨he, hm, ha⟩ := synchronizeThings_parts options createThing iid lid tok cfg ts
  rw [hloop] at he hm ha
  exact ⟨ha, he, hm⟩

/-- An oracle that fails on the template with external id `bad` and succeeds
elsewhere. -/
def w5Oracle : CreateThingOracle := fun template =>
  if template.externalID = "bad" then Except.error "boom"
  else Except.ok { id := String.append "thing-" template.externalID }

/-- A template list containing one failing template between two succeeding
ones. -/
def w5Templates : List ThingTemplate :=
  [{ thing := { id := "" }, externalID := "e1" },
    { thing := { id := "" }, externalID := "bad" },
    { thing := { id := "" }, externalID := "e2" }]

/-- Witness for C5 at a concrete run with a mid-list failure. -/
theorem claim5_witness :
    ({ AsyncInstanceCreation := false, EnforceThingCreation := false } :
        ConnectorServiceOptions).EnforceThingCreation = false ∧
      ((synchronizeThings { AsyncInstanceCreation := false, EnforceThingCreation := false }
            w5Oracle "inst" "instl" "tok" [] w5Templates).attempted = w5Templates ∧
        (synchronizeThings { AsyncInstanceCreation := false, EnforceThingCreation := false }
            w5Oracle "inst" "instl" "tok" [] w5Templates).error = none ∧
        (synchronizeThings { AsyncInstanceCreation := false, EnforceThingCreation := false }
            w5Oracle "inst" "instl" "tok" [] w5Templates).mappings =
          specSuccessMappings w5Oracle "inst" w5Templates) :=
  ⟨rfl, claim5_sync_no_enforcement _ w5Oracle "inst" "instl" "tok" [] w5Templates rfl⟩

/-- Claim C4 (amended): with synchronous enforcement and at least one
failing template, the run reports an error and its mapping set is a prefix —
not necessarily strict — of the mapping set the non-enforced run produces. -/
theorem claim4_amended (createThing : CreateThingOracle) (iid lid tok : String)
    (cfg : List Configuration) (ts : List ThingTemplate)
    (hfail : ∃ t ∈ ts, isErr (createThing t) = true) :
    (synchronizeThings { AsyncInstanceCreation := false, EnforceThingCreation := true }
        createThing iid lid tok cfg ts).error.isSome = true ∧
      ∃ rest,
        (synchronizeThings { AsyncInstanceCreation := false, EnforceThingCreation := true }
            createThing iid lid tok cfg ts).mappings ++ rest =
          (synchronizeThings { AsyncInstanceCreation := false, EnforceThingCreation := false }
            createThing iid lid tok cfg ts).mappings := by
  obtain ⟨he1, hm1, _⟩ := synchronizeThings_parts
    { AsyncInstanceCreation := false, EnforceThingCreation := true } createThing iid lid tok cfg ts
  obtain ⟨_, hm2, _⟩ := synchronizeThings_parts
    { AsyncInstanceCreation := false, EnforceThingCreation := false } createThing iid lid tok cfg ts
  constructor
  · rw [he1]
    exact (syncThingsLoop_enforced_error createThing iid ts).mpr hfail
  · rw [hm1, hm2]
    exact syncThingsLoop_enforced_initial_segment createThing iid ts

/-- An oracle that always fails to create a thing. -/
def x4Oracle : CreateThingOracle := fun _ => Except.error "thing creation failed"

/-- A single-template list for the C4 counterexample. -/
def x4Templates : List ThingTemplate := [{ thing := { id := "" }, externalID := "only" }]

/-- Counterexample to C4 as stated: with one failing template the enforced
run reports an error, but its mapping set equals — rather than being a
strict prefix of — the non-enforced run's mapping set. -/
theorem claim4_counterexample :
    (synchronizeThings { AsyncInstanceCreation := false, EnforceThingCreation := true }
        x4Oracle "inst" "instl" "tok" [] x4Templates).error.isSome = true ∧
      (synchronizeThings { AsyncInstanceCreation := false, EnforceThingCreation := true }
          x4Oracle "inst" "instl" "tok" [] x4Templates).mappings =
        (synchronizeThings { AsyncInstanceCreation := false, EnforceThingCreation := false }
          x4Oracle "inst" "instl" "tok" [] x4Templates).mappings ∧
      ¬ ∃ rest, rest ≠ [] ∧
        (synchronizeThings { AsyncInstanceCreation := false, EnforceThingCreation := true }
            x4Oracle "inst" "instl" "tok" [] x4Templates).mappings ++ rest =
          (synchronizeThings { AsyncInstanceCreation := false, EnforceThingCreation := false }
            x4Oracle "inst" "instl" "tok" [] x4Templates).mappings := by
  refine ⟨rfl, rfl, ?_⟩
  intro ⟨rest, hne, heq⟩
  have h1 : (synchronizeThings { AsyncInstanceCreation := false, EnforceThingCreation := true }
      x4Oracle "inst" "instl" "tok" [] x4Templates).mappings = [] := rfl
  have h2 : (synchronizeThings { AsyncInstanceCreation := false, EnforceThingCreation := false }
      x4Oracle "inst" "instl" "tok" [] x4Templates).mappings = [] := rfl
  rw [h1, h2, List.nil_append] at heq
  exact hne heq

/-- Witness for C4 (amended) at a concrete run: first template fails, second
succeeds, so the enforced mapping set `[]` is a prefix of the non-enforced
one. -/
def w4Oracle : CreateThingOracle := fun template =>
  if template.externalID = "bad" then Except.error "boom"
  else Except.ok { id := "created" }

/-- Templates for the C4 witness: a failing one, then a succeeding one. -/
def w4Templates : List ThingTemplate :=
  [{ thing := { id := "" }, externalID := "bad" },
    { thing := { id := "" }, externalID := "good" }]

/-- Witness for C4 (amended). -/
theorem claim4_witness :
    (∃ t ∈ w4Templates, isErr (w4Oracle t) = true) ∧
      ((synchronizeThings { AsyncInstanceCreation := false, EnforceThingCreation := true }
            w4Oracle "inst" "instl" "tok" [] w4Templates).error.isSome = true ∧
        ∃ rest,
          (synchronizeThings { AsyncInstanceCreation := false, EnforceThingCreation := true }
              w4Oracle "inst" "instl" "tok" [] w4Templates).mappings ++ rest =
            (synchronizeThings { AsyncInstanceCreation := false, EnforceThingCreation := false }
              w4Oracle "inst" "instl" "tok" [] w4Templates).mappings) :=
  ⟨⟨{ thing := { id := "" }, externalID := "bad" }, by decide⟩,
    claim4_amended w4Oracle "inst" "instl" "tok" [] w4Templates
      ⟨{ thing := { id := "" }, externalID := "bad" }, by decide⟩⟩

/-- Claim C3 (amended): instance registration with the provider happens
exactly once, after template processing, carrying exactly the successfully
created mappings — in every run that does not abort; the run where
synchronous enforcement aborts on a failing template performs no
registration at all, and aborts exactly when enforcement is active and some
template fails. -/
theorem claim3_amended (options : ConnectorServiceOptions)
    (createThing : CreateThingOracle) (iid lid tok : String)
    (cfg : List Configuration) (ts : List ThingTemplate) :
    ((synchronizeThings options createThing iid lid tok cfg ts).error = none →
        (synchronizeThings options createThing iid lid tok cfg ts).registeredInstances =
          [{ id := iid, installationID := lid, token := tok,
             thingMapping := specSuccessMappings createThing iid ts,
             configuration := cfg }]) ∧
      ((synchronizeThings options createThing iid lid tok cfg ts).error.isSome = true →
        (synchronizeThings options createThing iid lid tok cfg ts).registeredInstances = []) ∧
      ((synchronizeThings options createThing iid lid tok cfg ts).error = none ↔
        ((options.EnforceThingCreation && !options.AsyncInstanceCreation) = false ∨
          ∀ t ∈ ts, isErr (createThing t) = false)) := by
  have hiff := syncThingsLoop_error_none_iff options createThing iid ts
  rcases h : syncThingsLoop options createThing iid ts with ⟨a, m, e⟩
  rw [h] at hiff
  cases e with
  | none =>
    have hm := syncThingsLoop_mappings_of_error_none options createThing iid ts (by rw [h])
    rw [h] at hm
    refine ⟨fun _ => ?_, fun hs => ?_, ?_⟩
    · simp only [synchronizeThings, h]
      simp only at hm
      rw [hm]
    · simp [synchronizeThings, h] at hs
    · simp only [synchronizeThings, h]
      simpa using hiff
  | some err =>
    refine ⟨fun hnone => ?_, fun _ => ?_, ?_⟩
    · simp [synchronizeThings, h] at hnone
    · simp [synchronizeThings, h]
    · simp only [synchronizeThings, h]
      simpa using hiff

/-- An oracle that always fails, for the C3 counterexample. -/
def x3Oracle : CreateThingOracle := fun _ => Except.error "thing creation failed"

/-- A single-template list for the C3 counterexample. -/
def x3Templates : List ThingTemplate := [{ thing := { id := "" }, externalID := "only" }]

/-- Counterexample to C3 as stated: in the run where synchronous enforcement
aborts on a failing template, the provider registration is performed zero
times, not once. -/
theorem claim3_counterexample :
    (synchronizeThings { AsyncInstanceCreation := false, EnforceThingCreation := true }
        x3Oracle "inst" "instl" "tok" [] x3Templates).error.isSome = true ∧
      (synchronizeThings { AsyncInstanceCreation := false, EnforceThingCreation := true }
        x3Oracle "inst" "instl" "tok" [] x3Templates).registeredInstances = [] :=
  ⟨rfl, rfl⟩

/-- An all-succeeding oracle for the C3 witness. -/
def w3Oracle : CreateThingOracle := fun template =>
  Except.ok { id := String.append "id-" template.externalID }

/-- Templates for the C3 witness. -/
def w3Templates : List ThingTemplate :=
  [{ thing := { id := "" }, externalID := "a" },
    { thing := { id := "" }, externalID := "b" }]

/-- Witness for C3 (amended) at a concrete completing run. -/
theorem claim3_witness :
    (synchronizeThings { AsyncInstanceCreation := false, EnforceThingCreation := true }
        w3Oracle "inst" "instl" "tok" [] w3Templates).error = none ∧
      (synchronizeThings { AsyncInstanceCreation := false, EnforceThingCreation := true }
          w3Oracle "inst" "instl" "tok" [] w3Templates).registeredInstances =
        [{ id := "inst", installationID := "instl", token := "tok",
           thingMapping := specSuccessMappings w3Oracle "inst" w3Templates,
           configuration := [] }] :=
  ⟨rfl,
    (claim3_amended { AsyncInstanceCreation := false, EnforceThingCreation := true }
      w3Oracle "inst" "instl" "tok" [] w3Templates).1 rfl⟩

/-- Claim C6: when an update event carries a property update whose
forwarding fails together with an action event, the relay forwards the
action status as `Failed` — whatever status the action event carried — with
the error text annotated with the property-update failure. -/
theorem claim6_relay_override (updateProperty : PropertyUpdateEvent → Option GoErr)
    (update : UpdateEvent) (p : PropertyUpdateEvent) (e : GoErr) (a : ActionEvent)
    (hp : update.propertyUpdateEvent = some p)
    (he : updateProperty p = some e)
    (ha : update.actionEvent = some a) :
    (eventHandlerStep updateProperty update).actionForward =
      some (a.instanceId, a.requestId,
        { status := .failed, error := "failed to update property " ++ e }) := by
  simp [eventHandlerStep, hp, he, ha]

/-- Property-update forwarder for the C6 witness: always fails. -/
def w6UpdateProperty : PropertyUpdateEvent → Option GoErr := fun _ => some "network down"

/-- Update event for the C6 witness: a property update plus an action event
originally carrying status `Completed`. -/
def w6Update : UpdateEvent :=
  { actionEvent := some
      { instanceId := "inst", requestId := "req",
        response := { status := .completed, error := "" } },
    propertyUpdateEvent := some
      { thingId := "t", instanceId := "inst", componentId := "c",
        propertyId := "p", value := "42" } }

/-- Witness for C6: despite the original `Completed` status, the forwarded
status is `Failed` with the annotated error text. -/
theorem claim6_witness :
    w6Update.propertyUpdateEvent = some
        { thingId := "t", instanceId := "inst", componentId := "c",
          propertyId := "p", value := "42" } ∧
      w6UpdateProperty
          { thingId := "t", instanceId := "inst", componentId := "c",
            propertyId := "p", value := "42" } = some "network down" ∧
      w6Update.actionEvent = some
        { instanceId := "inst", requestId := "req",
          response := { status := .completed, error := "" } } ∧
      (eventHandlerStep w6UpdateProperty w6Update).actionForward =
        some ("inst", "req",
          { status := .failed, error := "failed to update property network down" }) :=
  ⟨rfl, rfl, rfl,
    claim6_relay_override w6UpdateProperty w6Update _ "network down" _ rfl rfl rfl⟩

/-- Claim C7: when the instance lookup for the action request's thing id
fails, `PerformAction` answers a `Failed` response with a fixed non-empty
error text and reports no error to its caller. -/
theorem claim7_perform_action_lookup_failure
    (getInstanceByThingId : String → Except GoErr Instance)
    (requestAction : Instance → ActionRequest → ActionRequestStatus × Option GoErr)
    (actionRequest : ActionRequest) (e : GoErr)
    (hlookup : getInstanceByThingId actionRequest.thingID = .error e) :
    PerformAction getInstanceByThingId requestAction actionRequest =
        (some { status := .failed, error := "thing ID was not found at connector" }, none) ∧
      "thing ID was not found at connector" ≠ "" := by
  refine ⟨?_, by decide⟩
  simp [PerformAction, hlookup]

/-- Witness for C7 at a concrete failing lookup. -/
theorem claim7_witness :
    ((fun _ => Except.error "sql: no rows in result set" :
        String → Except GoErr Instance) "thing-1") = .error "sql: no rows in result set" ∧
      PerformAction (fun _ => Except.error "sql: no rows in result set")
          (fun _ _ => (.completed, none)) { id := "a1", thingID := "thing-1" } =
        (some { status := .failed, error := "thing ID was not found at connector" }, none) :=
  ⟨rfl,
    (claim7_perform_action_lookup_failure (fun _ => Except.error "sql: no rows in result set")
      (fun _ _ => (.completed, none)) { id := "a1", thingID := "thing-1" }
      "sql: no rows in result set" rfl).1⟩

/-- Claim C9: constructing the service with both asynchronous instance
creation and enforced thing creation enabled fails with the
invalid-configuration error before any database read or provider
registration. -/
theorem claim9_invalid_configuration (options : ConnectorServiceOptions)
    (db : DatabaseReads)
    (hasync : options.AsyncInstanceCreation = true)
    (henf : options.EnforceThingCreation = true) :
    NewConnectorService options db =
      { service := none,
        error := some "enforced thing creation cant be enabled when async instance creation is enabled",
        effects := [] } := by
  simp [NewConnectorService, hasync, henf]

/-- Witness for C9 at concrete options and database contents. -/
theorem claim9_witness :
    ({ AsyncInstanceCreation := true, EnforceThingCreation := true } :
        ConnectorServiceOptions).AsyncInstanceCreation = true ∧
      ({ AsyncInstanceCreation := true, EnforceThingCreation := true } :
        ConnectorServiceOptions).EnforceThingCreation = true ∧
      NewConnectorService { AsyncInstanceCreation := true, EnforceThingCreation := true }
          { getInstallations := .ok [], getInstances := .ok [] } =
        { service := none,
          error := some "enforced thing creation cant be enabled when async instance creation is enabled",
          effects := [] } :=
  ⟨rfl, rfl,
    claim9_invalid_configuration { AsyncInstanceCreation := true, EnforceThingCreation := true }
      { getInstallations := .ok [], getInstances := .ok [] } rfl rfl⟩

/-! ### Canonicalizer claims -/

/-- The URL of the C1 example scenario, `https://foo.com:8080/bar?hello=world`. -/
def c1URL : URL :=
  { scheme := "https", host := "foo.com:8080", path := "/bar",
    forceQuery := false, rawQuery := "hello=world" }

/-- The header set of the C1 example scenario. -/
def c1Headers : Header := [("Date", ["Wed, 07 Oct 2020 10:00:00 GMT"])]

/-- Claim C1, evaluated: the canonicalizer in `validation.go` produces the
unlabeled `method\r\nhost\r\nrequestURI\r\ndate\r\n` payload on the example
scenario, while the six-argument canonicalizer the repository's tests and
verification middleware use produces exactly the labeled byte string the
claim states; the two outputs differ. -/
theorem claim1_canonical_payload :
    SignablePayload "GET" "foo.com:8080" c1URL c1Headers "" =
        ("GET\r\nfoo.com:8080\r\n/bar?hello=world\r\nWed, 07 Oct 2020 10:00:00 GMT\r\n",
          none) ∧
      cryptoSignablePayload "GET" "https" "foo.com:8080" "/bar?hello=world" c1Headers "" =
        ("(method):GET\r\n(url):https://foo.com:8080/bar?hello=world\r\n(Date):Wed, 07 Oct 2020 10:00:00 GMT\r\n(body):",
          none) ∧
      ("GET\r\nfoo.com:8080\r\n/bar?hello=world\r\nWed, 07 Oct 2020 10:00:00 GMT\r\n" ≠
        "(method):GET\r\n(url):https://foo.com:8080/bar?hello=world\r\n(Date):Wed, 07 Oct 2020 10:00:00 GMT\r\n(body):") := by
  refine ⟨?_, ?_, ?_⟩ <;> decide

/-- A header lookup returns the empty string exactly when the key is absent,
stored with no values, or stored with an empty first value. -/
theorem headerGet_eq_empty_iff (headers : Header) (key : String) :
    headerGet headers key = "" ↔
      (headerEntry headers key = none ∨ headerEntry headers key = some [] ∨
        ∃ vs, headerEntry headers key = some ("" :: vs)) := by
  rcases h : headerEntry headers key with _ | vs
  · simp [headerGet, h]
  · cases vs with
    | nil => simp [headerGet, h]
    | cons v vs' =>
      have hget : headerGet headers key = v := by simp [headerGet, h]
      rw [hget]
      constructor
      · intro hv
        subst hv
        exact Or.inr (Or.inr ⟨vs', rfl⟩)
      · intro hv
        rcases hv with hnone | hnil | ⟨ws, hws⟩
        · simp at hnone
        · simp at hnil
        · injection hws with h1
          injection h1 with h2 h3

/-- The header loop of `SignablePayload` fails with `ErrorMissingHeader`
exactly when some declared key's lookup is empty. -/
theorem signedHeaderFragments_error_iff (headers : Header) (keys : List String) :
    signedHeaderFragments headers keys = .error ErrorMissingHeader ↔
      ∃ k ∈ keys, headerGet headers k = "" := by
  induction keys with
  | nil => simp [signedHeaderFragments]
  | cons k rest ih =>
    simp only [signedHeaderFragments]
    by_cases hk : headerGet headers k = ""
    · simp [hk]
    · rw [if_neg hk]
      rcases hr : signedHeaderFragments headers rest with e' | tail
      · rw [hr] at ih
        simp only [List.mem_cons]
        constructor
        · intro h'
          rcases ih.mp h' with ⟨k', hk', hg⟩
          exact ⟨k', Or.inr hk', hg⟩
        · intro ⟨k', hk', hg⟩
          rcases hk' with rfl | hmem
          · exact absurd hg hk
          · exact ih.mpr ⟨k', hmem, hg⟩
      · rw [hr] at ih
        simp only [List.mem_cons]
        constructor
        · intro h'
          exact Except.noConfusion h'
        · intro ⟨k', hk', hg⟩
          rcases hk' with rfl | hmem
          · exact absurd hg hk
          · exact Except.noConfusion (ih.mpr ⟨k', hmem, hg⟩)

/-- Claim C8 (amended): `SignablePayload` fails with the MissingHeader error
iff some declared required header is absent from the header set, stored with
no values, or stored with an empty first value; neither the body nor the URL
influences this, as the right-hand side mentions only the headers. -/
theorem claim8_amended (method host : String) (url : URL) (headers : Header)
    (body : String) :
    (SignablePayload method host url headers body).2 = some ErrorMissingHeader ↔
      ∃ k ∈ SignedHeaderKeys,
        (headerEntry headers k = none ∨ headerEntry headers k = some [] ∨
          ∃ vs, headerEntry headers k = some ("" :: vs)) := by
  constructor
  · intro h
    rcases hf : signedHeaderFragments headers SignedHeaderKeys with e | frags
    · have he : e = ErrorMissingHeader := by
        simp [SignablePayload, hf] at h
        exact h
      subst he
      rcases (signedHeaderFragments_error_iff headers SignedHeaderKeys).mp hf with ⟨k, hk, hg⟩
      exact ⟨k, hk, (headerGet_eq_empty_iff headers k).mp hg⟩
    · simp [SignablePayload, hf] at h
  · intro ⟨k, hk, hcase⟩
    have hg : headerGet headers k = "" := (headerGet_eq_empty_iff headers k).mpr hcase
    have hf : signedHeaderFragments headers SignedHeaderKeys = .error ErrorMissingHeader :=
      (signedHeaderFragments_error_iff headers SignedHeaderKeys).mpr ⟨k, hk, hg⟩
    simp [SignablePayload, hf]

/-- Header set for the C8 counterexample: `Date` present with empty value. -/
def x8Headers : Header := [("Date", [""])]

/-- Counterexample to C8 as stated: with the `Date` header present in the
header set but carrying the empty value, canonicalization still fails with
the MissingHeader error, so the error does not occur only when a required
header is absent. -/
theorem claim8_counterexample :
    (SignablePayload "GET" "foo.com:8080" c1URL x8Headers "body").2 =
        some ErrorMissingHeader ∧
      headerEntry x8Headers SignedHeaderKeyDate = some [""] := by
  refine ⟨?_, ?_⟩ <;> decide

/-- Witness for C8 (amended) at a concrete header set missing `Date`. -/
theorem claim8_witness :
    ((SignablePayload "POST" "h" c1URL [("Host", ["h"])] "b").2 =
        some ErrorMissingHeader ↔
      ∃ k ∈ SignedHeaderKeys,
        (headerEntry [("Host", ["h"])] k = none ∨
          headerEntry [("Host", ["h"])] k = some [] ∨
          ∃ vs, headerEntry [("Host", ["h"])] k = some ("" :: vs))) ∧
      (SignablePayload "POST" "h" c1URL [("Host", ["h"])] "b").2 =
        some ErrorMissingHeader :=
  ⟨claim8_amended "POST" "h" c1URL [("Host", ["h"])] "b", by decide⟩

/-! ### Middleware claims -/

/-- Claim C2 (amended): the handler responds 400 `Failed to decode signature
signature` when the signature header is not valid base64; otherwise it
verifies the decoded signature against the payload component returned by the
canonicalizer — the canonicalization error itself is discarded — and either
forwards the request with the buffered body restored or responds 400
`Bad signature`; in both rejection cases the next handler never runs. -/
theorem claim2_amended (verify : Ed25519Verify) (h : SignatureValidationHandler)
    (r : Request) :
    (base64Decode (headerGet r.headers SignatureHeaderKey) = none →
        ServeHTTP verify h r = .respond 400 "Failed to decode signature signature") ∧
      (∀ s, base64Decode (headerGet r.headers SignatureHeaderKey) = some s →
        verify h.publicKey
          (cryptoSignablePayload r.method (h.preProcessor r).Scheme (h.preProcessor r).Host
            (h.preProcessor r).RequestURI r.headers r.body).1 s = true →
        ServeHTTP verify h r = .forward r.body) ∧
      (∀ s, base64Decode (headerGet r.headers SignatureHeaderKey) = some s →
        verify h.publicKey
          (cryptoSignablePayload r.method (h.preProcessor r).Scheme (h.preProcessor r).Host
            (h.preProcessor r).RequestURI r.headers r.body).1 s = false →
        ServeHTTP verify h r = .respond 400 "Bad signature") := by
  refine ⟨?_, ?_, ?_⟩
  · intro hdec
    simp [ServeHTTP, hdec]
  · intro s hdec hv
    simp [ServeHTTP, hdec, hv]
  · intro s hdec hv
    simp [ServeHTTP, hdec, hv]

/-- A request whose signature header is not valid base64. -/
def x2Request : Request :=
  { method := "POST",
    url := { scheme := "https", host := "example.com", path := "/callback",
             forceQuery := false, rawQuery := "" },
    headers := [("Signature", ["!"]), ("Date", ["Wed, 07 Oct 2020 10:00:00 GMT"])],
    body := "payload" }

/-- A handler with the default preprocessor and an empty public key. -/
def x2Handler : SignatureValidationHandler :=
  { preProcessor := DefaultValidationPreProcessor, publicKey := [] }

/-- A verifier that rejects everything. -/
def x2Verify : Ed25519Verify := fun _ _ _ => false

/-- Counterexample to C2 as stated: on a base64 decoding failure the handler
responds 400, but with the body `Failed to decode signature signature`, not
the fixed body `Bad signature` the claim requires for every failure. -/
theorem claim2_counterexample :
    ServeHTTP x2Verify x2Handler x2Request =
        .respond 400 "Failed to decode signature signature" ∧
      "Failed to decode signature signature" ≠ "Bad signature" := by
  refine ⟨?_, ?_⟩ <;> decide

/-- A verifier that accepts everything, for the C2 witness. -/
def w2Verify : Ed25519Verify := fun _ _ _ => true

/-- A request carrying no signature header, whose empty signature string
decodes to the empty byte list. -/
def w2Request : Request :=
  { method := "GET",
    url := { scheme := "https", host := "example.com", path := "/callback",
             forceQuery := false, rawQuery := "" },
    headers := [("Date", ["Wed, 07 Oct 2020 10:00:00 GMT"])],
    body := "b" }

/-- Witness for C2 (amended): a successfully verifying request is forwarded
with its body. -/
theorem claim2_witness :
    base64Decode (headerGet w2Request.headers SignatureHeaderKey) = some [] ∧
      w2Verify x2Handler.publicKey
        (cryptoSignablePayload w2Request.method (x2Handler.preProcessor w2Request).Scheme
          (x2Handler.preProcessor w2Request).Host (x2Handler.preProcessor w2Request).RequestURI
          w2Request.headers w2Request.body).1 [] = true ∧
      ServeHTTP w2Verify x2Handler w2Request = .forward w2Request.body :=
  ⟨rfl, rfl, (claim2_amended w2Verify x2Handler w2Request).2.1 [] rfl rfl⟩

/-- Claim C10: when the request lacks the required `Date` header, the
canonicalizer returns the empty payload along with the MissingHeader error,
the handler discards that error and verifies the decoded signature against
the empty byte string, and a signature that verifies against the empty
message gets the request forwarded to the next handler. -/
theorem claim10_discarded_canonicalization_error (verify : Ed25519Verify)
    (h : SignatureValidationHandler) (r : Request) (s : List Nat)
    (hdate : headerEntry r.headers SignedHeaderKeyDate = none)
    (hdec : base64Decode (headerGet r.headers SignatureHeaderKey) = some s)
    (hvempty : verify h.publicKey "" s = true) :
    cryptoSignablePayload r.method (h.preProcessor r).Scheme (h.preProcessor r).Host
        (h.preProcessor r).RequestURI r.headers r.body = ("", some ErrorMissingHeader) ∧
      ServeHTTP verify h r = .forward r.body := by
  have hget : headerGet r.headers SignedHeaderKeyDate = "" := by
    simp [headerGet, hdate]
  have hpayload : cryptoSignablePayload r.method (h.preProcessor r).Scheme
      (h.preProcessor r).Host (h.preProcessor r).RequestURI r.headers r.body =
      ("", some ErrorMissingHeader) := by
    simp [cryptoSignablePayload, SignedHeaderKeys, labeledHeaderFragments, hget]
  refine ⟨hpayload, ?_⟩
  simp [ServeHTTP, hdec, hpayload, hvempty]

/-- A verifier that accepts exactly signatures of the empty message. -/
def w10Verify : Ed25519Verify := fun _ message _ => message == ""

/-- A request with no `Date` header and no signature header (the empty
signature string decodes to the empty byte list). -/
def w10Request : Request :=
  { method := "POST",
    url := { scheme := "https", host := "example.com", path := "/callback",
             forceQuery := false, rawQuery := "" },
    headers := [],
    body := "body" }

/-- Witness for C10: the `Date`-less request is forwarded although
canonicalization failed. -/
theorem claim10_witness :
    headerEntry w10Request.headers SignedHeaderKeyDate = none ∧
      base64Decode (headerGet w10Request.headers SignatureHeaderKey) = some [] ∧
      w10Verify x2Handler.publicKey "" [] = true ∧
      (cryptoSignablePayload w10Request.method (x2Handler.preProcessor w10Request).Scheme
          (x2Handler.preProcessor w10Request).Host
          (x2Handler.preProcessor w10Request).RequestURI
          w10Request.headers w10Request.body = ("", some ErrorMissingHeader) ∧
        ServeHTTP w10Verify x2Handler w10Request = .forward w10Request.body) :=
  ⟨rfl, rfl, rfl,
    claim10_discarded_canonicalization_error w10Verify x2Handler w10Request [] rfl rfl rfl⟩

end ConnectorGo
